import Mathlib

/-!
Verification of the `ia configure` CLI subcommand
(`internetarchive/cli/ia_configure.py`).

The command is a straight-line dispatcher over four actions
(print-cookies, show, check, default-configure).  We embed it as a pure
function from the parsed CLI arguments, the session object and an
environment of external collaborators (the netrc file, the `whoami()`
call and the `configure()` call) to an outcome (exit code or uncaught
exception) together with the lines printed to stdout and stderr and the
list of `configure()` invocations.

Python dictionaries are modelled as association lists; Python truthiness
of the values involved (`None`, strings, dicts) is modelled explicitly.
A second, heap-based embedding of the `--show` branch models Python's
aliasing and in-place mutation so that the "no mutation of the original
config" claim is about real heap cells.
-/

/-- JSON-like values stored in the session config: strings and nested
dicts (the shapes the command manipulates). -/
inductive PyVal where
  | str (s : String)
  | dict (entries : List (String × PyVal))

abbrev Dict := List (String × PyVal)

/-- `d[k]` / `d.get(k)`: first binding of `k` in the association list. -/
def dictGet {α : Type} : List (String × α) → String → Option α
  | [], _ => none
  | (k', v) :: rest, k => if k' = k then some v else dictGet rest k

/-- `d[k] = v`: replace the binding of `k` in place, append if absent
(Python dict assignment preserves insertion order). -/
def dictSet {α : Type} : List (String × α) → String → α → List (String × α)
  | [], k, v => [(k, v)]
  | (k', v') :: rest, k, v =>
      if k' = k then (k, v) :: rest else (k', v') :: dictSet rest k v

/-- `del d[k]`: remove every binding of `k`. -/
def dictErase {α : Type} (d : List (String × α)) (k : String) : List (String × α) :=
  d.filter (fun p => p.1 ≠ k)

/-- Python truthiness of a `PyVal`: the empty string and the empty dict
are falsy. -/
def pyTruthyVal : PyVal → Bool
  | .str s => s ≠ ""
  | .dict es => !es.isEmpty

/-- Python truthiness of an optional value (`None` is falsy). -/
def pyTruthy : Option PyVal → Bool
  | none => false
  | some v => pyTruthyVal v

/-- Minimal JSON string escaping used by the serializer model. -/
def jsonEscape (s : String) : String :=
  s.foldl
    (fun acc c =>
      if c = '\\' then acc ++ "\\\\"
      else if c = '"' then acc ++ "\\\""
      else acc.push c)
    ""

mutual

/-- Model of `json.dumps(v, indent=2)`; `ind` is the current indentation. -/
def jsonDumpsVal : PyVal → String → String
  | .str s, _ => "\"" ++ jsonEscape s ++ "\""
  | .dict [], _ => "\x7b\x7d"
  | .dict (e :: es), ind =>
      "\x7b\n" ++ jsonDumpsEntries (e :: es) (ind ++ "  ") ++ "\n" ++ ind ++ "\x7d"

/-- Entries of a dict, one per line, comma separated. -/
def jsonDumpsEntries : List (String × PyVal) → String → String
  | [], _ => ""
  | [(k, v)], ind => ind ++ "\"" ++ jsonEscape k ++ "\": " ++ jsonDumpsVal v ind
  | (k, v) :: e :: es, ind =>
      ind ++ "\"" ++ jsonEscape k ++ "\": " ++ jsonDumpsVal v ind ++ ",\n" ++
        jsonDumpsEntries (e :: es) ind

end

/-- `json.dumps(config, indent=2)`. -/
def jsonDumps (config : Dict) : String :=
  jsonDumpsVal (.dict config) ""

mutual

/-- Python `repr` of a value (used by `str()` on dicts). -/
def pyReprVal : PyVal → String
  | .str s => "\x27" ++ s ++ "\x27"
  | .dict es => "\x7b" ++ pyReprEntries es ++ "\x7d"

/-- Comma-separated `repr` of dict entries. -/
def pyReprEntries : List (String × PyVal) → String
  | [] => ""
  | [(k, v)] => "\x27" ++ k ++ "\x27: " ++ pyReprVal v
  | (k, v) :: e :: es =>
      "\x27" ++ k ++ "\x27: " ++ pyReprVal v ++ ", " ++ pyReprEntries (e :: es)

end

/-- Python `str()` of a value, as used in f-strings. -/
def pyStrVal : PyVal → String
  | .str s => s
  | .dict es => pyReprVal (.dict es)

/-- `str()` of an optional value (`None` prints as `None`). -/
def pyStrOpt : Option PyVal → String
  | none => "None"
  | some v => pyStrVal v

/-- Parsed CLI arguments of the `configure` subcommand
(`setup` in `ia_configure.py`). -/
structure Args where
  username : Option String
  password : Option String
  netrc : Bool
  «show» : Bool
  check : Bool
  print_cookies : Bool

/-- The session object handed to `main`: its parsed config plus the
opaque `config_file` and `host` values forwarded to `configure`. -/
structure Session where
  config : Dict
  config_file : String
  host : String

/-- One entry of the parsed netrc `hosts` map: the `(login, account,
password)` triple returned by `netrc.netrc().hosts[host]`. -/
structure NetrcEntry where
  login : String
  account : Option String
  password : Option String

/-- Result of the `netrc.netrc()` call: the two exceptions `main`
catches, or the parsed hosts map. -/
inductive NetrcResult where
  | parseError
  | fileNotFound
  | ok (hosts : List (String × NetrcEntry))

/-- Result of `session.whoami()`:
`{"success": bool, "value": {"username": str}}`; `detail` stands for any
failure detail the response may carry, which `main` never reads. -/
structure WhoamiInfo where
  success : Bool
  username : String
  detail : String

/-- Environment of external collaborators: the netrc file, the
`whoami()` call, and the `configure()` call (which either returns the
config-file path or raises `AuthenticationError` with a message). -/
structure Env where
  netrcResult : NetrcResult
  whoami : WhoamiInfo
  configureResult : Except String String

/-- One invocation of the external `configure()` collaborator. -/
structure ConfigureCall where
  username : Option String
  password : Option String
  config_file : String
  host : String
deriving DecidableEq, Repr

/-- How the process ends: a `sys.exit` / normal return with an exit
code, or an uncaught Python exception. -/
inductive Outcome where
  | exited (code : Nat)
  | crashed (exc : String)
deriving DecidableEq, Repr

/-- Observable result of one run of `main`: the outcome, the strings
passed to `print(...)` on each stream, and the `configure()` calls. -/
structure MainResult where
  outcome : Outcome
  stdout : List String
  stderr : List String
  calls : List ConfigureCall
deriving DecidableEq, Repr

/-- `"error: 'logged-in-user' and 'logged-in-sig' cookies not found in
config file, try reconfiguring."` -/
def msgBothMissing : String :=
  "error: \x27logged-in-user\x27 and \x27logged-in-sig\x27 cookies " ++
    "not found in config file, try reconfiguring."

/-- `"error: 'logged-in-user' cookie not found in config file, try
reconfiguring."` -/
def msgUserMissing : String :=
  "error: \x27logged-in-user\x27 cookie not found in config file, " ++
    "try reconfiguring."

/-- `"error: 'logged-in-sig' cookie not found in config file, try
reconfiguring."` -/
def msgSigMissing : String :=
  "error: \x27logged-in-sig\x27 cookie not found in config file, " ++
    "try reconfiguring."

/-- The error message of the missing/falsy-cookie branch, selected by
the truthiness of the two cookies exactly as the nested `if`s do. -/
def missingCookieMsg (userTruthy sigTruthy : Bool) : String :=
  if !userTruthy && !sigTruthy then msgBothMissing
  else if !userTruthy then msgUserMissing
  else msgSigMissing

/-- `f"logged-in-user={user}; logged-in-sig={sig}"`. -/
def cookieLine (user sig : String) : String :=
  s!"logged-in-user={user}; logged-in-sig={sig}"

/-- `"Configuring 'ia' with netrc file..."` (stderr banner). -/
def netrcBanner : String := "Configuring \x27ia\x27 with netrc file..."

/-- `"error: netrc.netrc() cannot parse your .netrc file."` -/
def msgNetrcParse : String := "error: netrc.netrc() cannot parse your .netrc file."

/-- `"error: .netrc file not found."` -/
def msgNetrcNotFound : String := "error: .netrc file not found."

/-- The interactive prompt banner (note the trailing blank line). -/
def promptBanner : String :=
  "Enter your Archive.org credentials below to configure \x27ia\x27.\n"

/-- `f"Config saved to: {config_file_path}"`. -/
def savedMsg (path : String) : String := s!"Config saved to: {path}"

/-- `f"\nerror: {exc}"` for an `AuthenticationError` message. -/
def authErrMsg (msg : String) : String := "\nerror: " ++ msg

/-- `"Your credentials are invalid, check your configuration and try
again"` -/
def invalidCredsMsg : String :=
  "Your credentials are invalid, check your configuration and try again"

/-- `f'The credentials for "{user}" are valid'`. -/
def validCredsMsg (user : String) : String :=
  "The credentials for \"" ++ user ++ "\" are valid"

/-- `config.get("cookies", \x7b\x7d)`: the cookies sub-dict, the empty
dict when absent, or an `AttributeError` (from the subsequent `.get`)
when the value is not a dict. -/
def cookiesDict (config : Dict) : Except String Dict :=
  match dictGet config "cookies" with
  | none => .ok []
  | some (.dict c) => .ok c
  | some (.str _) => .error "AttributeError"

/-- Truthiness of an optional credential string flag
(`args.username and args.password`). -/
def strTruthy : Option String → Bool
  | none => false
  | some s => s ≠ ""

/-- The `--print-cookies` branch (lines 73-88). -/
def mainPrintCookies (s : Session) : MainResult :=
  match cookiesDict s.config with
  | .error e => { outcome := .crashed e, stdout := [], stderr := [], calls := [] }
  | .ok cookies =>
      let user := dictGet cookies "logged-in-user"
      let sig := dictGet cookies "logged-in-sig"
      if !pyTruthy user || !pyTruthy sig then
        { outcome := .exited 1
          stdout := []
          stderr := [missingCookieMsg (pyTruthy user) (pyTruthy sig)]
          calls := [] }
      else
        { outcome := .exited 0
          stdout := [cookieLine (pyStrOpt user) (pyStrOpt sig)]
          stderr := []
          calls := [] }

/-- `if 's3' in config: s3_config = config['s3'].copy(); if 'secret' in
s3_config: s3_config['secret'] = 'REDACTED'; config['s3'] = s3_config`
(lines 93-97); `.copy()` on a non-dict raises `AttributeError`. -/
def redactS3 (config : Dict) : Except String Dict :=
  match dictGet config "s3" with
  | none => .ok config
  | some (.dict s3_config) =>
      let s3_config :=
        if (dictGet s3_config "secret").isSome
        then dictSet s3_config "secret" (.str "REDACTED")
        else s3_config
      .ok (dictSet config "s3" (.dict s3_config))
  | some (.str _) => .error "AttributeError"

/-- `if 'cookies' in config: cookies = config['cookies'].copy(); if
'logged-in-sig' in cookies: cookies['logged-in-sig'] = 'REDACTED';
config['cookies'] = cookies` (lines 99-103). -/
def redactCookies (config : Dict) : Except String Dict :=
  match dictGet config "cookies" with
  | none => .ok config
  | some (.dict cookies) =>
      let cookies :=
        if (dictGet cookies "logged-in-sig").isSome
        then dictSet cookies "logged-in-sig" (.str "REDACTED")
        else cookies
      .ok (dictSet config "cookies" (.dict cookies))
  | some (.str _) => .error "AttributeError"

/-- The `--show` branch (lines 90-106). -/
def mainShow (s : Session) : MainResult :=
  match redactS3 s.config with
  | .error e => { outcome := .crashed e, stdout := [], stderr := [], calls := [] }
  | .ok config =>
      match redactCookies config with
      | .error e => { outcome := .crashed e, stdout := [], stderr := [], calls := [] }
      | .ok config =>
          { outcome := .exited 0
            stdout := [jsonDumps config]
            stderr := []
            calls := [] }

/-- The `--check` branch (lines 108-116). -/
def mainCheck (env : Env) : MainResult :=
  if env.whoami.success then
    { outcome := .exited 0
      stdout := [validCredsMsg env.whoami.username]
      stderr := []
      calls := [] }
  else
    { outcome := .exited 1
      stdout := [invalidCredsMsg]
      stderr := []
      calls := [] }

/-- The default configure action (lines 118-152), netrc or
interactive/flag mode, wrapped in `try ... except AuthenticationError`. -/
def mainDefault (args : Args) (s : Session) (env : Env) : MainResult :=
  if args.netrc then
    match env.netrcResult with
    | .parseError =>
        { outcome := .exited 1, stdout := []
          stderr := [netrcBanner, msgNetrcParse], calls := [] }
    | .fileNotFound =>
        { outcome := .exited 1, stdout := []
          stderr := [netrcBanner, msgNetrcNotFound], calls := [] }
    | .ok hosts =>
        match dictGet hosts "archive.org" with
        | none =>
            -- `n.hosts["archive.org"]` raises KeyError, caught nowhere
            { outcome := .crashed "KeyError", stdout := []
              stderr := [netrcBanner], calls := [] }
        | some entry =>
            let username := entry.login
            let password := entry.password.getD ""
            let call : ConfigureCall :=
              { username := some username, password := some password
                config_file := s.config_file, host := s.host }
            match env.configureResult with
            | .error msg =>
                { outcome := .exited 1, stdout := []
                  stderr := [netrcBanner, authErrMsg msg], calls := [call] }
            | .ok path =>
                { outcome := .exited 0, stdout := []
                  stderr := [netrcBanner, savedMsg path], calls := [call] }
  else
    let both := strTruthy args.username && strTruthy args.password
    let promptOut : List String := if !both then [promptBanner] else []
    let call : ConfigureCall :=
      { username := args.username, password := args.password
        config_file := s.config_file, host := s.host }
    match env.configureResult with
    | .error msg =>
        { outcome := .exited 1, stdout := promptOut
          stderr := [authErrMsg msg], calls := [call] }
    | .ok path =>
        let saved := savedMsg path
        let saved := if !both then "\n" ++ saved else saved
        { outcome := .exited 0, stdout := promptOut ++ [saved]
          stderr := [], calls := [call] }

/-- The four mutually exclusive actions of `main`. -/
inductive CliAction where
  | printCookies
  | showConfig
  | checkCreds
  | defaultConfigure
deriving DecidableEq, Repr

/-- Which action a given argument record selects, following the order
of the `if` statements in `main` (first match wins). -/
def selectAction (args : Args) : CliAction :=
  if args.print_cookies then .printCookies
  else if args.«show» then .showConfig
  else if args.check then .checkCreds
  else .defaultConfigure

/-- Run one action. -/
def runAction : CliAction → Args → Session → Env → MainResult
  | .printCookies, _, s, _ => mainPrintCookies s
  | .showConfig, _, s, _ => mainShow s
  | .checkCreds, _, _, env => mainCheck env
  | .defaultConfigure, args, s, env => mainDefault args s env

/-- `main(args)` from `ia_configure.py` (lines 69-152). -/
def IaConfigure.main (args : Args) (s : Session) (env : Env) : MainResult :=
  if args.print_cookies then mainPrintCookies s
  else if args.«show» then mainShow s
  else if args.check then mainCheck env
  else mainDefault args s env

/-! ### Heap model of the `--show` branch

Python dicts are heap objects; `config.copy()` is a shallow copy (a new
dict whose values, including references to nested dicts, are shared) and
`d[k] = v` mutates a dict in place.  To state that the `--show` branch
never mutates the session's own config, we re-embed lines 91-103 over an
explicit heap: addresses are indices into a list of dict cells, and a
dict value is either a string or a reference to another cell. -/

/-- A heap value: a string, or a reference to a dict cell. -/
inductive HVal where
  | str (s : String)
  | ref (a : Nat)
deriving DecidableEq, Repr

abbrev HDict := List (String × HVal)

abbrev Heap := List HDict

/-- Read the dict cell at address `a`. -/
def heapGetD (h : Heap) (a : Nat) : HDict := h.getD a []

/-- One copy-and-redact block of the `--show` branch over the heap
(`x = config[storeKey].copy(); if redactKey in x: x[redactKey] =
'REDACTED'; config[storeKey] = x`): allocate a shallow copy of the cell
at `srcAddr`, redact `redactKey` in place if present, and store a
reference to the copy under `storeKey` in the cell at `config`. -/
def copyRedactStore (h : Heap) (config srcAddr : Nat) (storeKey redactKey : String) :
    Heap :=
  let copyAddr := h.length
  let h1 := h ++ [heapGetD h srcAddr]
  let h2 :=
    if (dictGet (heapGetD h1 copyAddr) redactKey).isSome
    then h1.set copyAddr (dictSet (heapGetD h1 copyAddr) redactKey (.str "REDACTED"))
    else h1
  h2.set config (dictSet (heapGetD h2 config) storeKey (.ref copyAddr))

/-- One `if storeKey in config: ...` block of the `--show` branch: run
the copy-and-redact block when the entry is present (only a reference to
a dict cell is handled here; a string-valued entry raises
AttributeError, modelled in `mainShow`). -/
def showBlock (h : Heap) (config : Nat) (storeKey redactKey : String) : Heap :=
  match dictGet (heapGetD h config) storeKey with
  | some (.ref addr) => copyRedactStore h config addr storeKey redactKey
  | _ => h

/-- Lines 91-103 of `main` over the heap: `config =
args.session.config.copy()`, then the s3 block (`storeKey = "s3"`,
`redactKey = "secret"`) and the cookies block (`storeKey = "cookies"`,
`redactKey = "logged-in-sig"`).  Returns the new heap and the address of
the redacted copy. -/
def showRedactHeap (h : Heap) (configAddr : Nat) : Heap × Nat :=
  -- config = args.session.config.copy()
  let config := h.length
  let h1 := h ++ [heapGetD h configAddr]
  -- if 's3' in config: ...
  let h2 := showBlock h1 config "s3" "secret"
  -- if 'cookies' in config: ...
  let h3 := showBlock h2 config "cookies" "logged-in-sig"
  (h3, config)

/-! ### Association-list lemmas -/

theorem dictGet_dictSet_self {α : Type} (d : List (String × α)) (k : String) (v : α) :
    dictGet (dictSet d k v) k = some v := by
  induction d with
  | nil => simp [dictGet, dictSet]
  | cons p rest ih =>
      obtain ⟨k₀, v₀⟩ := p
      by_cases hk : k₀ = k
      · simp [dictGet, dictSet, hk]
      · simp [dictGet, dictSet, hk, ih]

theorem dictGet_dictSet_ne {α : Type} (d : List (String × α)) (k k' : String) (v : α)
    (hne : k' ≠ k) : dictGet (dictSet d k v) k' = dictGet d k' := by
  have hkk : ¬(k = k') := fun h => hne h.symm
  induction d with
  | nil => simp [dictGet, dictSet, hkk]
  | cons p rest ih =>
      obtain ⟨k₀, v₀⟩ := p
      by_cases hk : k₀ = k
      · subst hk
        simp [dictGet, dictSet, hkk]
      · simp [dictGet, dictSet, hk, ih]

theorem dictGet_dictErase_self {α : Type} (d : List (String × α)) (k : String) :
    dictGet (dictErase d k) k = none := by
  induction d with
  | nil => simp [dictGet, dictErase]
  | cons p rest ih =>
      obtain ⟨k₀, v₀⟩ := p
      by_cases hk : k₀ = k
      · simpa [dictErase, hk] using ih
      · simpa [dictErase, dictGet, hk] using ih

theorem dictGet_dictErase_ne {α : Type} (d : List (String × α)) (k k' : String)
    (hne : k' ≠ k) : dictGet (dictErase d k) k' = dictGet d k' := by
  induction d with
  | nil => simp [dictGet, dictErase]
  | cons p rest ih =>
      obtain ⟨k₀, v₀⟩ := p
      by_cases hk : k₀ = k
      · have hne' : ¬(k = k') := fun h => hne h.symm
        simpa [dictErase, dictGet, hk, hne'] using ih
      · by_cases hk' : k₀ = k'
        · simp [dictErase, dictGet, List.filter_cons, hk, hk', hne]
        · simpa [dictErase, dictGet, List.filter_cons, hk, hk'] using ih

/-! ### Heap lemmas: the `--show` branch writes only to fresh cells -/

/-- All cells at addresses below `n` agree between two heaps. -/
def AgreesBelow (n : Nat) (h h' : Heap) : Prop :=
  ∀ i, i < n → h'[i]? = h[i]?

theorem AgreesBelow.trans {n : Nat} {h₁ h₂ h₃ : Heap}
    (a : AgreesBelow n h₁ h₂) (b : AgreesBelow n h₂ h₃) : AgreesBelow n h₁ h₃ :=
  fun i hi => (b i hi).trans (a i hi)

theorem agreesBelow_append {n : Nat} (h : Heap) (l : Heap) (hn : n ≤ h.length) :
    AgreesBelow n h (h ++ l) :=
  fun _i hi => List.getElem?_append_left (Nat.lt_of_lt_of_le hi hn)

theorem agreesBelow_set {n j : Nat} (h : Heap) (d : HDict) (hj : n ≤ j) :
    AgreesBelow n h (h.set j d) :=
  fun i hi => List.getElem?_set_ne (by omega)

theorem copyRedactStore_agreesBelow (h : Heap) (config srcAddr : Nat)
    (sk rk : String) (n : Nat) (hn : n ≤ h.length) (hc : n ≤ config) :
    AgreesBelow n h (copyRedactStore h config srcAddr sk rk) := by
  unfold copyRedactStore
  refine AgreesBelow.trans (agreesBelow_append h [heapGetD h srcAddr] hn) ?_
  refine AgreesBelow.trans ?_ (agreesBelow_set _ _ hc)
  split
  · exact agreesBelow_set _ _ hn
  · exact fun i _ => rfl

theorem copyRedactStore_length (h : Heap) (config srcAddr : Nat) (sk rk : String) :
    h.length ≤ (copyRedactStore h config srcAddr sk rk).length := by
  unfold copyRedactStore
  dsimp only
  split <;> simp

theorem showBlock_agreesBelow (h : Heap) (config : Nat) (sk rk : String)
    (n : Nat) (hlen : n ≤ h.length) (hc : n ≤ config) :
    AgreesBelow n h (showBlock h config sk rk) := by
  unfold showBlock
  split
  · exact copyRedactStore_agreesBelow _ _ _ _ _ _ hlen hc
  all_goals exact fun i _ => rfl

theorem showBlock_length (h : Heap) (config : Nat) (sk rk : String) :
    h.length ≤ (showBlock h config sk rk).length := by
  unfold showBlock
  split
  · exact copyRedactStore_length _ _ _ _ _
  all_goals exact Nat.le_refl _

/-- The heap embedding of the `--show` branch leaves every pre-existing
heap cell unchanged: it only allocates fresh cells and writes to them. -/
theorem showRedactHeap_agreesBelow (h : Heap) (a : Nat) :
    AgreesBelow h.length h (showRedactHeap h a).1 := by
  unfold showRedactHeap
  dsimp only
  refine AgreesBelow.trans (agreesBelow_append h [heapGetD h a] (Nat.le_refl _)) ?_
  refine AgreesBelow.trans
    (showBlock_agreesBelow (h ++ [heapGetD h a]) h.length "s3" "secret" _
      (by simp) (Nat.le_refl _)) ?_
  exact showBlock_agreesBelow _ h.length "cookies" "logged-in-sig" _
    (Nat.le_trans (by simp) (showBlock_length _ _ _ _)) (Nat.le_refl _)

/-! ### Claim theorems -/

/-- C9: For every combination of input flags, exactly one of the four
actions executes per invocation, selected by the first matching branch
in the fixed order print_cookies, show, check, default; `--print-cookies`
short-circuits all other actions, and `--netrc` does not select a
separate action (it only changes how default-configure obtains
credentials). -/
theorem dispatch_single_action (args : Args) :
    (selectAction args = .printCookies ↔ args.print_cookies = true) ∧
    (selectAction args = .showConfig ↔
      args.print_cookies = false ∧ args.«show» = true) ∧
    (selectAction args = .checkCreds ↔
      args.print_cookies = false ∧ args.«show» = false ∧ args.check = true) ∧
    (selectAction args = .defaultConfigure ↔
      args.print_cookies = false ∧ args.«show» = false ∧ args.check = false) ∧
    (∀ b, selectAction { args with netrc := b } = selectAction args) ∧
    (∀ s env, IaConfigure.main args s env = runAction (selectAction args) args s env) := by
  obtain ⟨u, p, n, sh, c, pc⟩ := args
  cases sh <;> cases c <;> cases pc <;>
    simp [selectAction, IaConfigure.main, runAction]

/-- Witness for C9 at a concrete argument record: `--print-cookies`
together with `--show`, `--check` and `--netrc` still selects the
print-cookies action. -/
theorem dispatch_single_action_witness :
    selectAction ⟨none, none, true, true, true, true⟩ = .printCookies :=
  (dispatch_single_action ⟨none, none, true, true, true, true⟩).1.mpr rfl

/-- C4: With `--check`, `main` prints the validity message and exits 0
when `whoami()` reports success, and prints the generic
invalid-credentials message and exits 1 otherwise, independent of the
failure detail (the result's `username`/`detail` fields are arbitrary in
the failure case). -/
theorem check_validates_credentials (args : Args) (s : Session) (env : Env)
    (hpc : args.print_cookies = false) (hsh : args.«show» = false)
    (hck : args.check = true) :
    (env.whoami.success = true →
      IaConfigure.main args s env =
        { outcome := .exited 0, stdout := [validCredsMsg env.whoami.username]
          stderr := [], calls := [] }) ∧
    (env.whoami.success = false →
      IaConfigure.main args s env =
        { outcome := .exited 1, stdout := [invalidCredsMsg]
          stderr := [], calls := [] }) := by
  constructor <;> intro h <;>
    simp [IaConfigure.main, mainCheck, hpc, hsh, hck, h]

/-- Witness for C4: a failing `whoami()` with arbitrary detail yields
the generic message and exit 1. -/
theorem check_validates_credentials_witness :
    IaConfigure.main ⟨none, none, false, false, true, false⟩ ⟨[], "cf", "h"⟩
        ⟨.ok [], ⟨false, "someuser", "some failure detail"⟩, .ok "p"⟩ =
      { outcome := .exited 1, stdout := [invalidCredsMsg]
        stderr := [], calls := [] } :=
  (check_validates_credentials _ _ _ rfl rfl rfl).2 rfl

/-- C5 (code behavior at the claimed input): with `--netrc` and a netrc
file that parses but has no `archive.org` entry, `main` does NOT fail
cleanly: the `n.hosts["archive.org"]` lookup raises a `KeyError` that no
handler catches, so the process crashes after printing only the netrc
banner. -/
theorem netrc_missing_entry_crashes :
    IaConfigure.main ⟨none, none, true, false, false, false⟩
        ⟨[], "cf", "archive.org"⟩
        ⟨.ok [("example.com", ⟨"u", none, some "pw"⟩)], ⟨true, "u", ""⟩, .ok "cf"⟩ =
      { outcome := .crashed "KeyError", stdout := []
        stderr := [netrcBanner], calls := [] } := rfl

/-- C6: With `--netrc` and a missing netrc file, `main` prints the netrc
banner followed by exactly the message `error: .netrc file not found.`
to stderr, prints nothing to stdout, and exits 1. -/
theorem netrc_file_not_found_message (args : Args) (s : Session) (env : Env)
    (hpc : args.print_cookies = false) (hsh : args.«show» = false)
    (hck : args.check = false) (hn : args.netrc = true)
    (hnr : env.netrcResult = .fileNotFound) :
    IaConfigure.main args s env =
      { outcome := .exited 1, stdout := []
        stderr := [netrcBanner, msgNetrcNotFound], calls := [] } ∧
    msgNetrcNotFound = "error: .netrc file not found." := by
  refine ⟨?_, rfl⟩
  simp [IaConfigure.main, mainDefault, hpc, hsh, hck, hn, hnr]

/-- Witness for C6 at a concrete session and environment. -/
theorem netrc_file_not_found_message_witness :
    IaConfigure.main ⟨none, none, true, false, false, false⟩ ⟨[], "cf", "h"⟩
        ⟨.fileNotFound, ⟨true, "u", ""⟩, .ok "p"⟩ =
      { outcome := .exited 1, stdout := []
        stderr := [netrcBanner, msgNetrcNotFound], calls := [] } ∧
    msgNetrcNotFound = "error: .netrc file not found." :=
  netrc_file_not_found_message _ _ _ rfl rfl rfl rfl rfl

/-- C8: With `--username` and `--password` both supplied as non-empty
flags and no action flag set, no interactive banner is printed,
`configure` is invoked exactly once with exactly
`(username, password, config_file, host)`, and on success the saved-path
message is printed to stdout with no leading blank line. -/
theorem flags_skip_prompt (u p : String) (hu : u ≠ "") (hp : p ≠ "")
    (s : Session) (env : Env) (path : String)
    (hcr : env.configureResult = .ok path) :
    IaConfigure.main ⟨some u, some p, false, false, false, false⟩ s env =
      { outcome := .exited 0, stdout := [savedMsg path], stderr := []
        calls := [⟨some u, some p, s.config_file, s.host⟩] } ∧
    savedMsg path = "Config saved to: " ++ path := by
  refine ⟨?_, ?_⟩
  · simp [IaConfigure.main, mainDefault, strTruthy, hu, hp, hcr]
  · show toString "Config saved to: " ++ toString path ++ toString "" = _
    rw [show (toString "" : String) = "" from rfl, String.append_empty]
    rfl

/-- Witness for C8 at `--username bob --password secret`. -/
theorem flags_skip_prompt_witness :
    IaConfigure.main ⟨some "bob", some "secret", false, false, false, false⟩
        ⟨[], "/cfg/ia.ini", "archive.org"⟩ ⟨.ok [], ⟨true, "bob", ""⟩, .ok "/cfg/ia.ini"⟩ =
      { outcome := .exited 0, stdout := [savedMsg "/cfg/ia.ini"], stderr := []
        calls := [⟨some "bob", some "secret", "/cfg/ia.ini", "archive.org"⟩] } ∧
    savedMsg "/cfg/ia.ini" = "Config saved to: " ++ "/cfg/ia.ini" :=
  flags_skip_prompt "bob" "secret" (by decide) (by decide) _ _ _ rfl

/-- Counterexample to C3 as stated: a config in which both cookie
ENTRIES are present — `logged-in-user` bound to the empty string,
`logged-in-sig` bound to `"x"` — yet `--print-cookies` exits 1 with a
missing-cookie error instead of printing the cookie line and exiting 0. -/
theorem print_cookies_present_entry_counterexample :
    dictGet [("logged-in-user", PyVal.str ""), ("logged-in-sig", PyVal.str "x")]
        "logged-in-user" = some (PyVal.str "") ∧
    dictGet [("logged-in-user", PyVal.str ""), ("logged-in-sig", PyVal.str "x")]
        "logged-in-sig" = some (PyVal.str "x") ∧
    IaConfigure.main ⟨none, none, false, false, false, true⟩
        ⟨[("cookies", .dict [("logged-in-user", PyVal.str ""),
            ("logged-in-sig", PyVal.str "x")])], "cf", "h"⟩
        ⟨.ok [], ⟨true, "u", ""⟩, .ok "p"⟩ =
      { outcome := .exited 1, stdout := []
        stderr := [msgUserMissing], calls := [] } :=
  ⟨rfl, rfl, rfl⟩

/-- C3 (amended): With `--print-cookies`, `main` prints the cookie line
and exits 0 exactly when both cookies are present with TRUTHY (non-empty)
values; otherwise it prints to stderr one of three distinct error
messages — selected by whether both cookies, only the user cookie, or
only the sig cookie are missing-or-falsy — and exits 1. -/
theorem print_cookies_cases (args : Args) (s : Session) (c : Dict) (env : Env)
    (hpc : args.print_cookies = true)
    (hc : cookiesDict s.config = .ok c) :
    (pyTruthy (dictGet c "logged-in-user") = true →
     pyTruthy (dictGet c "logged-in-sig") = true →
      IaConfigure.main args s env =
        { outcome := .exited 0
          stdout := [cookieLine (pyStrOpt (dictGet c "logged-in-user"))
                       (pyStrOpt (dictGet c "logged-in-sig"))]
          stderr := [], calls := [] }) ∧
    ((pyTruthy (dictGet c "logged-in-user") = false ∨
      pyTruthy (dictGet c "logged-in-sig") = false) →
      IaConfigure.main args s env =
        { outcome := .exited 1, stdout := []
          stderr := [missingCookieMsg (pyTruthy (dictGet c "logged-in-user"))
                       (pyTruthy (dictGet c "logged-in-sig"))]
          calls := [] }) ∧
    missingCookieMsg false false = msgBothMissing ∧
    missingCookieMsg false true = msgUserMissing ∧
    missingCookieMsg true false = msgSigMissing ∧
    msgBothMissing ≠ msgUserMissing ∧
    msgBothMissing ≠ msgSigMissing ∧
    msgUserMissing ≠ msgSigMissing := by
  refine ⟨?_, ?_, rfl, rfl, rfl, by decide, by decide, by decide⟩
  · intro hu hsig
    simp [IaConfigure.main, hpc, mainPrintCookies, hc, hu, hsig]
  · intro h
    rcases h with hu | hsig
    · simp [IaConfigure.main, hpc, mainPrintCookies, hc, hu]
    · cases hu : pyTruthy (dictGet c "logged-in-user") <;>
        simp [IaConfigure.main, hpc, mainPrintCookies, hc, hu, hsig]

/-- Witness for C3 (amended): both cookies present and truthy yields the
cookie line and exit 0. -/
theorem print_cookies_cases_witness :
    IaConfigure.main ⟨none, none, false, false, false, true⟩
        ⟨[("cookies", .dict [("logged-in-user", PyVal.str "alice"),
            ("logged-in-sig", PyVal.str "xyz")])], "cf", "h"⟩
        ⟨.ok [], ⟨true, "u", ""⟩, .ok "p"⟩ =
      { outcome := .exited 0
        stdout := [cookieLine (pyStrOpt (dictGet [("logged-in-user", PyVal.str "alice"),
            ("logged-in-sig", PyVal.str "xyz")] "logged-in-user"))
          (pyStrOpt (dictGet [("logged-in-user", PyVal.str "alice"),
            ("logged-in-sig", PyVal.str "xyz")] "logged-in-sig"))]
        stderr := [], calls := [] } :=
  (print_cookies_cases ⟨none, none, false, false, false, true⟩
    ⟨[("cookies", .dict [("logged-in-user", PyVal.str "alice"),
        ("logged-in-sig", PyVal.str "xyz")])], "cf", "h"⟩
    [("logged-in-user", PyVal.str "alice"), ("logged-in-sig", PyVal.str "xyz")]
    ⟨.ok [], ⟨true, "u", ""⟩, .ok "p"⟩ rfl rfl).1 rfl rfl

/-- C10: In `--print-cookies` mode, a cookie entry that is present but
bound to a falsy value is treated exactly as if it were absent: the run
is identical to the run on the config with that entry deleted, and it
ends with the matching missing-cookie error on stderr and exit 1. -/
theorem falsy_cookie_treated_as_absent (args : Args) (s : Session) (c : Dict)
    (env : Env) (hpc : args.print_cookies = true)
    (hc : dictGet s.config "cookies" = some (.dict c)) :
    (∀ v, dictGet c "logged-in-user" = some v → pyTruthyVal v = false →
      IaConfigure.main args s env =
        IaConfigure.main args
          { s with config := dictSet s.config "cookies" (.dict (dictErase c "logged-in-user")) } env ∧
      (IaConfigure.main args s env).outcome = .exited 1 ∧
      (IaConfigure.main args s env).stderr =
        [missingCookieMsg false (pyTruthy (dictGet c "logged-in-sig"))]) ∧
    (∀ v, dictGet c "logged-in-sig" = some v → pyTruthyVal v = false →
      IaConfigure.main args s env =
        IaConfigure.main args
          { s with config := dictSet s.config "cookies" (.dict (dictErase c "logged-in-sig")) } env ∧
      (IaConfigure.main args s env).outcome = .exited 1 ∧
      (IaConfigure.main args s env).stderr =
        [missingCookieMsg (pyTruthy (dictGet c "logged-in-user")) false]) := by
  constructor
  · intro v hv hfalsy
    have herase : dictGet (dictErase c "logged-in-user") "logged-in-user" = none :=
      dictGet_dictErase_self c "logged-in-user"
    have hsig : dictGet (dictErase c "logged-in-user") "logged-in-sig" =
        dictGet c "logged-in-sig" :=
      dictGet_dictErase_ne c "logged-in-user" "logged-in-sig" (by decide)
    rcases hsd : dictGet c "logged-in-sig" with _ | w
    · refine ⟨?_, ?_, ?_⟩ <;>
        simp [IaConfigure.main, hpc, mainPrintCookies, cookiesDict, hc,
          dictGet_dictSet_self, herase, hsig, hv, hfalsy, hsd, pyTruthy,
          missingCookieMsg]
    · cases hw : pyTruthyVal w <;>
        refine ⟨?_, ?_, ?_⟩ <;>
          simp [IaConfigure.main, hpc, mainPrintCookies, cookiesDict, hc,
            dictGet_dictSet_self, herase, hsig, hv, hfalsy, hsd, hw, pyTruthy,
            missingCookieMsg]
  · intro v hv hfalsy
    have herase : dictGet (dictErase c "logged-in-sig") "logged-in-sig" = none :=
      dictGet_dictErase_self c "logged-in-sig"
    have huser : dictGet (dictErase c "logged-in-sig") "logged-in-user" =
        dictGet c "logged-in-user" :=
      dictGet_dictErase_ne c "logged-in-sig" "logged-in-user" (by decide)
    rcases hud : dictGet c "logged-in-user" with _ | w
    · refine ⟨?_, ?_, ?_⟩ <;>
        simp [IaConfigure.main, hpc, mainPrintCookies, cookiesDict, hc,
          dictGet_dictSet_self, herase, huser, hv, hfalsy, hud, pyTruthy,
          missingCookieMsg]
    · cases hw : pyTruthyVal w <;>
        refine ⟨?_, ?_, ?_⟩ <;>
          simp [IaConfigure.main, hpc, mainPrintCookies, cookiesDict, hc,
            dictGet_dictSet_self, herase, huser, hv, hfalsy, hud, hw, pyTruthy,
            missingCookieMsg]

/-- Witness for C10: a present-but-empty `logged-in-user` cookie behaves
exactly like the config without that entry. -/
theorem falsy_cookie_treated_as_absent_witness :
    IaConfigure.main ⟨none, none, false, false, false, true⟩
        ⟨[("cookies", .dict [("logged-in-user", PyVal.str ""),
            ("logged-in-sig", PyVal.str "xyz")])], "cf", "h"⟩
        ⟨.ok [], ⟨true, "u", ""⟩, .ok "p"⟩ =
      IaConfigure.main ⟨none, none, false, false, false, true⟩
        ⟨dictSet [("cookies", PyVal.dict [("logged-in-user", PyVal.str ""),
            ("logged-in-sig", PyVal.str "xyz")])] "cookies"
          (.dict (dictErase [("logged-in-user", PyVal.str ""),
            ("logged-in-sig", PyVal.str "xyz")] "logged-in-user")), "cf", "h"⟩
        ⟨.ok [], ⟨true, "u", ""⟩, .ok "p"⟩ :=
  ((falsy_cookie_treated_as_absent ⟨none, none, false, false, false, true⟩
    ⟨[("cookies", .dict [("logged-in-user", PyVal.str ""),
        ("logged-in-sig", PyVal.str "xyz")])], "cf", "h"⟩
    [("logged-in-user", PyVal.str ""), ("logged-in-sig", PyVal.str "xyz")]
    ⟨.ok [], ⟨true, "u", ""⟩, .ok "p"⟩ rfl rfl).1 (PyVal.str "") rfl rfl).1

/-- Characterization of `redactS3` on a well-formed config (the `s3`
entry absent or a dict): it succeeds, changes no other top-level key,
and inside `s3` replaces only a present `secret` with `REDACTED`. -/
theorem redactS3_spec (config : Dict)
    (h : dictGet config "s3" = none ∨ ∃ d, dictGet config "s3" = some (.dict d)) :
    ∃ c', redactS3 config = .ok c' ∧
      (∀ k, k ≠ "s3" → dictGet c' k = dictGet config k) ∧
      (dictGet config "s3" = none → dictGet c' "s3" = none) ∧
      (∀ d, dictGet config "s3" = some (.dict d) →
        ∃ d', dictGet c' "s3" = some (.dict d') ∧
          (∀ k, k ≠ "secret" → dictGet d' k = dictGet d k) ∧
          ((dictGet d "secret").isSome → dictGet d' "secret" = some (.str "REDACTED")) ∧
          (dictGet d "secret" = none → dictGet d' "secret" = none)) := by
  rcases h with h | ⟨d, h⟩
  · refine ⟨config, by simp [redactS3, h], fun k _ => rfl, fun _ => h, ?_⟩
    intro d hd
    rw [h] at hd
    cases hd
  · refine ⟨dictSet config "s3"
      (.dict (if (dictGet d "secret").isSome
              then dictSet d "secret" (.str "REDACTED") else d)), ?_, ?_, ?_, ?_⟩
    · simp [redactS3, h]
    · intro k hk
      exact dictGet_dictSet_ne _ _ _ _ hk
    · intro h0
      rw [h] at h0
      cases h0
    · intro d₀ hd₀
      rw [h] at hd₀
      injection hd₀ with h1
      injection h1 with h2
      subst h2
      refine ⟨_, dictGet_dictSet_self _ _ _, ?_, ?_, ?_⟩
      · intro k hk
        by_cases hsec : (dictGet d "secret").isSome
        · simp [hsec, dictGet_dictSet_ne _ _ _ _ hk]
        · simp [hsec]
      · intro hsec
        simp [hsec, dictGet_dictSet_self]
      · intro hnone
        simp [hnone]

/-- Characterization of `redactCookies` on a well-formed config: it
succeeds, changes no other top-level key, and inside `cookies` replaces
only a present `logged-in-sig` with `REDACTED`. -/
theorem redactCookies_spec (config : Dict)
    (h : dictGet config "cookies" = none ∨
      ∃ d, dictGet config "cookies" = some (.dict d)) :
    ∃ c', redactCookies config = .ok c' ∧
      (∀ k, k ≠ "cookies" → dictGet c' k = dictGet config k) ∧
      (dictGet config "cookies" = none → dictGet c' "cookies" = none) ∧
      (∀ d, dictGet config "cookies" = some (.dict d) →
        ∃ d', dictGet c' "cookies" = some (.dict d') ∧
          (∀ k, k ≠ "logged-in-sig" → dictGet d' k = dictGet d k) ∧
          ((dictGet d "logged-in-sig").isSome →
            dictGet d' "logged-in-sig" = some (.str "REDACTED")) ∧
          (dictGet d "logged-in-sig" = none →
            dictGet d' "logged-in-sig" = none)) := by
  rcases h with h | ⟨d, h⟩
  · refine ⟨config, by simp [redactCookies, h], fun k _ => rfl, fun _ => h, ?_⟩
    intro d hd
    rw [h] at hd
    cases hd
  · refine ⟨dictSet config "cookies"
      (.dict (if (dictGet d "logged-in-sig").isSome
              then dictSet d "logged-in-sig" (.str "REDACTED") else d)), ?_, ?_, ?_, ?_⟩
    · simp [redactCookies, h]
    · intro k hk
      exact dictGet_dictSet_ne _ _ _ _ hk
    · intro h0
      rw [h] at h0
      cases h0
    · intro d₀ hd₀
      rw [h] at hd₀
      injection hd₀ with h1
      injection h1 with h2
      subst h2
      refine ⟨_, dictGet_dictSet_self _ _ _, ?_, ?_, ?_⟩
      · intro k hk
        by_cases hsig : (dictGet d "logged-in-sig").isSome
        · simp [hsig, dictGet_dictSet_ne _ _ _ _ hk]
        · simp [hsig]
      · intro hsig
        simp [hsig, dictGet_dictSet_self]
      · intro hnone
        simp [hnone]

/-- C1: With `--show`, `main` prints exactly one line to stdout — the
indented-JSON serialization of a config `R` in which `s3.secret` (if
present) and `cookies.logged-in-sig` (if present) are `REDACTED` and
every other field, at top level and inside the `s3` and `cookies`
sub-dicts, is unchanged — prints nothing to stderr, and exits 0. -/
theorem show_prints_redacted_config (args : Args) (s : Session) (env : Env)
    (hpc : args.print_cookies = false) (hsh : args.«show» = true)
    (hs3 : dictGet s.config "s3" = none ∨
      ∃ d, dictGet s.config "s3" = some (.dict d))
    (hck : dictGet s.config "cookies" = none ∨
      ∃ d, dictGet s.config "cookies" = some (.dict d)) :
    ∃ R : Dict,
      IaConfigure.main args s env =
        { outcome := .exited 0, stdout := [jsonDumps R]
          stderr := [], calls := [] } ∧
      (∀ k, k ≠ "s3" → k ≠ "cookies" → dictGet R k = dictGet s.config k) ∧
      (dictGet s.config "s3" = none → dictGet R "s3" = none) ∧
      (∀ d, dictGet s.config "s3" = some (.dict d) →
        ∃ d', dictGet R "s3" = some (.dict d') ∧
          (∀ k, k ≠ "secret" → dictGet d' k = dictGet d k) ∧
          ((dictGet d "secret").isSome → dictGet d' "secret" = some (.str "REDACTED")) ∧
          (dictGet d "secret" = none → dictGet d' "secret" = none)) ∧
      (dictGet s.config "cookies" = none → dictGet R "cookies" = none) ∧
      (∀ d, dictGet s.config "cookies" = some (.dict d) →
        ∃ d', dictGet R "cookies" = some (.dict d') ∧
          (∀ k, k ≠ "logged-in-sig" → dictGet d' k = dictGet d k) ∧
          ((dictGet d "logged-in-sig").isSome →
            dictGet d' "logged-in-sig" = some (.str "REDACTED")) ∧
          (dictGet d "logged-in-sig" = none →
            dictGet d' "logged-in-sig" = none)) := by
  obtain ⟨c1, hr1, hother1, hn1, hs1⟩ := redactS3_spec s.config hs3
  have hckc1 : dictGet c1 "cookies" = dictGet s.config "cookies" :=
    hother1 "cookies" (by decide)
  obtain ⟨c2, hr2, hother2, hn2, hs2⟩ := redactCookies_spec c1 (by rw [hckc1]; exact hck)
  refine ⟨c2, ?_, ?_, ?_, ?_, ?_, ?_⟩
  · simp [IaConfigure.main, hpc, hsh, mainShow, hr1, hr2]
  · intro k hk1 hk2
    rw [hother2 k hk2, hother1 k hk1]
  · intro h0
    rw [hother2 "s3" (by decide)]
    exact hn1 h0
  · intro d hd
    rw [← hother2 "s3" (by decide)] at *
    exact hs1 d hd
  · intro h0
    exact hn2 (by rw [hckc1]; exact h0)
  · intro d hd
    exact hs2 d (by rw [hckc1]; exact hd)

/-- Witness for C1: a config holding an `s3.secret` and no `cookies`
entry is printed with the secret redacted. -/
theorem show_prints_redacted_config_witness :
    ∃ R : Dict,
      IaConfigure.main ⟨none, none, false, true, false, false⟩
          ⟨[("s3", .dict [("secret", PyVal.str "topsecret")])], "cf", "h"⟩
          ⟨.ok [], ⟨true, "u", ""⟩, .ok "p"⟩ =
        { outcome := .exited 0, stdout := [jsonDumps R]
          stderr := [], calls := [] } ∧
      (∀ k, k ≠ "s3" → k ≠ "cookies" →
        dictGet R k = dictGet [("s3", PyVal.dict [("secret", PyVal.str "topsecret")])] k) ∧
      (dictGet [("s3", PyVal.dict [("secret", PyVal.str "topsecret")])] "s3" = none →
        dictGet R "s3" = none) ∧
      (∀ d, dictGet [("s3", PyVal.dict [("secret", PyVal.str "topsecret")])] "s3" =
          some (.dict d) →
        ∃ d', dictGet R "s3" = some (.dict d') ∧
          (∀ k, k ≠ "secret" → dictGet d' k = dictGet d k) ∧
          ((dictGet d "secret").isSome → dictGet d' "secret" = some (.str "REDACTED")) ∧
          (dictGet d "secret" = none → dictGet d' "secret" = none)) ∧
      (dictGet [("s3", PyVal.dict [("secret", PyVal.str "topsecret")])] "cookies" = none →
        dictGet R "cookies" = none) ∧
      (∀ d, dictGet [("s3", PyVal.dict [("secret", PyVal.str "topsecret")])] "cookies" =
          some (.dict d) →
        ∃ d', dictGet R "cookies" = some (.dict d') ∧
          (∀ k, k ≠ "logged-in-sig" → dictGet d' k = dictGet d k) ∧
          ((dictGet d "logged-in-sig").isSome →
            dictGet d' "logged-in-sig" = some (.str "REDACTED")) ∧
          (dictGet d "logged-in-sig" = none →
            dictGet d' "logged-in-sig" = none)) :=
  show_prints_redacted_config ⟨none, none, false, true, false, false⟩
    ⟨[("s3", .dict [("secret", PyVal.str "topsecret")])], "cf", "h"⟩
    ⟨.ok [], ⟨true, "u", ""⟩, .ok "p"⟩ rfl rfl
    (Or.inr ⟨[("secret", PyVal.str "topsecret")], rfl⟩) (Or.inl rfl)

/-- C2: Running the `--show` branch does not mutate the original session
config: in the heap embedding, every heap cell that existed before the
branch ran — in particular the session's config dict and its `s3` and
`cookies` sub-dicts — holds exactly the same entries afterwards. -/
theorem show_does_not_mutate_config (h : Heap) (a i : Nat) (hi : i < h.length) :
    ((showRedactHeap h a).1)[i]? = h[i]? :=
  showRedactHeap_agreesBelow h a i hi

/-- Witness for C2: a heap holding a config dict (cell 0) with `s3` and
`cookies` references (cells 1 and 2); after the `--show` branch all
three original cells are untouched. -/
theorem show_does_not_mutate_config_witness :
    ((showRedactHeap [[("s3", HVal.ref 1), ("cookies", HVal.ref 2)],
        [("secret", HVal.str "sec")], [("logged-in-sig", HVal.str "sig")]] 0).1)[1]? =
      ([[("s3", HVal.ref 1), ("cookies", HVal.ref 2)],
        [("secret", HVal.str "sec")], [("logged-in-sig", HVal.str "sig")]] : Heap)[1]? :=
  show_does_not_mutate_config _ 0 1 (by decide)

/-- An `AuthenticationError` report (which starts with a newline) is
never the interactive prompt banner. -/
theorem authErrMsg_ne_promptBanner (e : String) : authErrMsg e ≠ promptBanner := by
  intro hEq
  have h2 := congrArg String.data hEq
  simp [authErrMsg, promptBanner, String.data_append] at h2

/-- Counterexample to C7 as stated: in `--check` mode with failing
credentials, the invalid-credentials error message is printed to STDOUT
(and stderr stays empty), so not every error message goes to stderr. -/
theorem check_error_on_stdout_counterexample :
    (IaConfigure.main ⟨none, none, false, false, true, false⟩ ⟨[], "cf", "h"⟩
        ⟨.ok [], ⟨false, "u", "detail"⟩, .ok "p"⟩).stdout = [invalidCredsMsg] ∧
    (IaConfigure.main ⟨none, none, false, false, true, false⟩ ⟨[], "cf", "h"⟩
        ⟨.ok [], ⟨false, "u", "detail"⟩, .ok "p"⟩).stderr = [] :=
  ⟨rfl, rfl⟩

/-- C7 (amended): Every error message except the check-mode
invalid-credentials message — i.e. the netrc-parse-error, the
netrc-file-not-found error, the three missing-cookie errors and the
authentication-failure report — is written to stderr and never to
stdout; the check-mode invalid-credentials message is written to stdout,
never to stderr. -/
theorem error_stream_contract (s : Session) (env : Env) (u p : Option String)
    (c : Dict) (e : String) (hosts : List (String × NetrcEntry)) (entry : NetrcEntry) :
    (env.netrcResult = .parseError →
      IaConfigure.main ⟨u, p, true, false, false, false⟩ s env =
        { outcome := .exited 1, stdout := []
          stderr := [netrcBanner, msgNetrcParse], calls := [] }) ∧
    (env.netrcResult = .fileNotFound →
      IaConfigure.main ⟨u, p, true, false, false, false⟩ s env =
        { outcome := .exited 1, stdout := []
          stderr := [netrcBanner, msgNetrcNotFound], calls := [] }) ∧
    (cookiesDict s.config = .ok c →
      (pyTruthy (dictGet c "logged-in-user") = false ∨
       pyTruthy (dictGet c "logged-in-sig") = false) →
      (IaConfigure.main ⟨u, p, false, false, false, true⟩ s env).stderr =
        [missingCookieMsg (pyTruthy (dictGet c "logged-in-user"))
          (pyTruthy (dictGet c "logged-in-sig"))] ∧
      (IaConfigure.main ⟨u, p, false, false, false, true⟩ s env).stdout = []) ∧
    (env.netrcResult = .ok hosts → dictGet hosts "archive.org" = some entry →
      env.configureResult = .error e →
      IaConfigure.main ⟨u, p, true, false, false, false⟩ s env =
        { outcome := .exited 1, stdout := []
          stderr := [netrcBanner, authErrMsg e]
          calls := [⟨some entry.login, some (entry.password.getD ""),
            s.config_file, s.host⟩] }) ∧
    (env.configureResult = .error e →
      (IaConfigure.main ⟨u, p, false, false, false, false⟩ s env).stderr =
        [authErrMsg e] ∧
      authErrMsg e ∉ (IaConfigure.main ⟨u, p, false, false, false, false⟩ s env).stdout) ∧
    (env.whoami.success = false →
      (IaConfigure.main ⟨u, p, false, false, true, false⟩ s env).stdout =
        [invalidCredsMsg] ∧
      (IaConfigure.main ⟨u, p, false, false, true, false⟩ s env).stderr = []) := by
  refine ⟨?_, ?_, ?_, ?_, ?_, ?_⟩
  · intro h1
    simp [IaConfigure.main, mainDefault, h1]
  · intro h1
    simp [IaConfigure.main, mainDefault, h1]
  · intro hcd hne
    rcases hne with hu | hsig
    · constructor <;>
        simp [IaConfigure.main, mainPrintCookies, hcd, hu]
    · cases hu : pyTruthy (dictGet c "logged-in-user") <;>
        constructor <;>
          simp [IaConfigure.main, mainPrintCookies, hcd, hu, hsig]
  · intro hok hentry herr
    simp [IaConfigure.main, mainDefault, hok, hentry, herr]
  · intro herr
    constructor
    · simp [IaConfigure.main, mainDefault, herr]
    · simp only [IaConfigure.main, mainDefault, herr]
      cases hb : strTruthy u && strTruthy p <;>
        simp [hb, authErrMsg_ne_promptBanner e]
  · intro hwho
    constructor <;> simp [IaConfigure.main, mainCheck, hwho]

/-- Witness for C7 (amended): the netrc-parse-error scenario at a
concrete environment puts the parse error on stderr and nothing on
stdout. -/
theorem error_stream_contract_witness :
    IaConfigure.main ⟨none, none, true, false, false, false⟩ ⟨[], "cf", "h"⟩
        ⟨.parseError, ⟨true, "u", ""⟩, .ok "p"⟩ =
      { outcome := .exited 1, stdout := []
        stderr := [netrcBanner, msgNetrcParse], calls := [] } :=
  (error_stream_contract ⟨[], "cf", "h"⟩ ⟨.parseError, ⟨true, "u", ""⟩, .ok "p"⟩
    none none [] "e" [] ⟨"l", none, none⟩).1 rfl
